import Mathlib

/-!
Shallow embedding of the healthkit data pipeline
(src/src/data_processing.py and the regimen summary of src/scripts/refresh.py).

Conventions of the embedding:
* timestamps are modelled as parsed integer epoch seconds (pd.to_datetime has
  already succeeded; its failure is the generic fail-fast error path);
* calendar dates are integer day numbers (days since 1970-01-01, so
  2024-01-01 = 19723 and 2024-12-31 = 20088; Python weekday() = (day + 3) % 7
  since 1970-01-01 was a Thursday);
* a pandas NaN cell is `none : Option _`;
* machine floats are idealised as exact rationals, with np.round modelled as
  exact round-half-to-even.
-/

namespace HealthKit

/-- Exact round-half-to-even to an integer, modelling np.round(x, 0) on an
exact value. -/
def roundHalfEven (x : ℚ) : ℤ :=
  let f := ⌊x⌋
  let r := x - (f : ℚ)
  if r < 1/2 then f
  else if 1/2 < r then f + 1
  else if f % 2 = 0 then f else f + 1

/-- np.round(x, 1). -/
def round1 (x : ℚ) : ℚ := (roundHalfEven (x * 10) : ℚ) / 10

/-- np.round(x, 0). -/
def round0 (x : ℚ) : ℚ := (roundHalfEven x : ℚ)

/-- Addition of two pandas cells: NaN propagates. -/
def nanAdd : Option ℚ → Option ℚ → Option ℚ
  | some a, some b => some (a + b)
  | _, _ => none

/-- Digits of a numeric literal read as a natural number. -/
def natVal (l : List Char) : ℕ :=
  l.foldl (fun a c => a * 10 + (c.toNat - 48)) 0

/-- Python float(s) restricted to plain decimal literals (optional sign,
digits, optional fractional part); other accepted forms (exponents, inf)
are not produced by the data this pipeline reads.  `none` models the
ValueError raised on an unparseable string. -/
def pyFloat? (s : String) : Option ℚ :=
  let cs := s.data
  let sgn : ℚ := match cs with
    | '-' :: _ => -1
    | _ => 1
  let cs1 := match cs with
    | '-' :: t => t
    | '+' :: t => t
    | _ => cs
  let ip := cs1.takeWhile Char.isDigit
  let rest := cs1.dropWhile Char.isDigit
  match rest with
  | [] => if ip.isEmpty then none else some (sgn * (natVal ip : ℚ))
  | '.' :: fp =>
      if fp.all Char.isDigit && (!ip.isEmpty || !fp.isEmpty) then
        some (sgn * ((natVal ip : ℚ) + (natVal fp : ℚ) / (10 ^ fp.length)))
      else none
  | _ => none

/-- Python date(timestamp): the calendar day a timestamp falls on
(floor division, as for naive local timestamps). -/
def dayOf (ts : Int) : Int := ts.fdiv 86400

/-- Python weekday() on a day number: Monday = 0 .. Sunday = 6. -/
def weekdayOf (d : Int) : Int := (d + 3) % 7

/-- The weekday_map of process_final_data. -/
def weekdayName (w : Int) : String :=
  if w = 0 then "Monday"
  else if w = 1 then "Tuesday"
  else if w = 2 then "Wednesday"
  else if w = 3 then "Thursday"
  else if w = 4 then "Friday"
  else if w = 5 then "Saturday"
  else "Sunday"

/-! ## Record Flattener: process_health_data -/

/-- One Record element of the export, with the timestamp attributes already
parsed (startDate/endDate as epoch seconds). -/
structure RawRecord where
  type : String
  sourceName : Option String := none
  sourceVersion : Option String := none
  unit : Option String
  value : String
  startDate : Int
  endDate : Int
deriving DecidableEq

/-- The six sleep-analysis category codes (sleep_categories in the source). -/
def sleep_categories : List String :=
  [ "HKCategoryValueSleepAnalysisInBed",
    "HKCategoryValueSleepAnalysisAsleepCore",
    "HKCategoryValueSleepAnalysisAsleepDeep",
    "HKCategoryValueSleepAnalysisAwake",
    "HKCategoryValueSleepAnalysisAsleepREM",
    "HKCategoryValueSleepAnalysisAsleepUnspecified" ]

/-- The keys of value_replacements: coded values replaced with NaN before the
float cast. -/
def value_replacements : List String :=
  [ "HKCategoryValueSleepAnalysisInBed",
    "HKCategoryValueNotApplicable",
    "HKCategoryValueHeadphoneAudioExposureEventSevenDayLimit",
    "HKCategoryValueEnvironmentalAudioExposureEventMomentaryLimit",
    "HKCategoryValueSleepAnalysisAsleepCore",
    "HKCategoryValueSleepAnalysisAsleepDeep",
    "HKCategoryValueSleepAnalysisAwake",
    "HKCategoryValueSleepAnalysisAsleepREM",
    "HKCategoryValueSleepAnalysisAsleepUnspecified",
    "HKCategoryValueAppleStandHourIdle",
    "HKCategoryValueAppleStandHourStood" ]

/-- df['value'].replace(value_replacements) followed by astype(float):
a mapped code becomes NaN, anything else must parse as a float. -/
def cast_value (v : String) : Except String (Option ℚ) :=
  if v ∈ value_replacements then .ok none
  else match pyFloat? v with
    | some q => .ok (some q)
    | none => .error "could not convert string to float"

/-- One row of the NormalizedRecord table. -/
structure HealthRow where
  type : String
  unit : Option String
  value : Option ℚ
  value2 : String
  start_datetime : Int
  end_datetime : Int
  time_elapsed : Int
  start_date : Int
  end_date : Int
deriving DecidableEq

/-- process_health_data, per record (the DataFrame transformations are all
row-wise).  Steps in source order: +4h shift of both timestamps when the raw
coded value is one of the six sleep categories; time_elapsed; calendar dates
from the shifted timestamps; type column with its first
len('HKCategoryTypeIdentifier') = 24 characters removed; value2 preserving
the raw coded value; the NaN replacement map and the float cast; finally for
rows whose value2 is in sleep_categories, value is overwritten with
Timedelta.seconds (the seconds component, i.e. elapsed mod 86400) and unit
with the literal "s". -/
def process_health_record (r : RawRecord) : Except String HealthRow :=
  let is_sleep : Bool := decide (r.value ∈ sleep_categories)
  let shift : Int := if is_sleep then 14400 else 0
  let sdt := r.startDate + shift
  let edt := r.endDate + shift
  let elapsed := edt - sdt
  match cast_value r.value with
  | .error e => .error e
  | .ok v0 =>
      .ok { type := r.type.drop 24
            unit := if is_sleep then some "s" else r.unit
            value := if is_sleep then some ((elapsed.emod 86400 : Int) : ℚ) else v0
            value2 := r.value
            start_datetime := sdt
            end_datetime := edt
            time_elapsed := elapsed
            start_date := dayOf sdt
            end_date := dayOf edt }

/-- The whole flattening stage: fail-fast over all records. -/
def process_health_data (rs : List RawRecord) : Except String (List HealthRow) :=
  rs.mapM process_health_record

/-! ## Workout Flattener: process_workout_data -/

/-- A WorkoutStatistics child element (attributes may be absent). -/
structure WorkoutStat where
  stat_type : String
  sum : Option String
  unit : Option String
deriving DecidableEq

/-- A MetadataEntry child element. -/
structure MetadataEntry where
  key : String
  value : String
deriving DecidableEq

/-- One Workout element of the export, timestamps already parsed. -/
structure RawWorkout where
  workoutActivityType : String
  duration : Option String
  durationUnit : Option String
  startDate : Int
  endDate : Int
  statistics : List WorkoutStat
  metadata : List MetadataEntry
deriving DecidableEq

/-- Python s.split(' ', 1): the part before the first space and the rest;
no space means the whole string and no second part. -/
def splitFirstSpace (s : String) : String × Option String :=
  if s.data.contains ' ' then
    (⟨s.data.takeWhile (fun c => c != ' ')⟩,
     some ⟨(s.data.dropWhile (fun c => c != ' ')).tail⟩)
  else (s, none)

/-- The per-workout dict built by the extraction loops.  The scans overwrite
on every match, so the last matching statistic / metadata entry wins; an
outer `none` in distance/elevation means the dict key was never created
(hence the DataFrame column may not exist). -/
structure WRecData where
  workout_activity_type : String
  duration : Option String
  duration_unit : Option String
  start_ts : Int
  end_ts : Int
  distance : Option (Option String)
  distance_unit : Option (Option String)
  elevation : Option String
  elevation_unit : Option (Option String)
deriving DecidableEq

/-- The extraction loop body of process_workout_data. -/
def extract_workout (w : RawWorkout) : WRecData :=
  let dstats := w.statistics.filter
    (fun s => s.stat_type == "HKQuantityTypeIdentifierDistanceWalkingRunning")
  let melev := (w.metadata.filter (fun m => m.key == "HKElevationAscended")).getLast?
  { workout_activity_type := w.workoutActivityType
    duration := w.duration
    duration_unit := w.durationUnit
    start_ts := w.startDate
    end_ts := w.endDate
    distance := (dstats.getLast?).map (·.sum)
    distance_unit := (dstats.getLast?).map (·.unit)
    elevation := melev.map (fun m => (splitFirstSpace m.value).1)
    elevation_unit := melev.map (fun m => (splitFirstSpace m.value).2) }

/-- One row of the NormalizedWorkout table. -/
structure WorkoutRow where
  workout_activity_type : String
  duration : Int
  duration_unit : Option String
  distance_walking_running : Option ℚ
  distance_walking_running_unit : Option String
  elevation_ascended : ℚ
  elevation_ascended_unit : Option String
  start_datetime : Int
  end_datetime : Int
  start_date : Int
  end_date : Int
deriving DecidableEq

/-- duration column: astype(float), np.round(.., 0), astype(int); a missing
attribute is a NaN cell and astype(int) on NaN raises. -/
def parse_duration_cell : Option String → Except String Int
  | none => .error "cannot convert non-finite values to integer"
  | some s => match pyFloat? s with
    | none => .error "could not convert string to float"
    | some q => .ok (roundHalfEven q)

/-- distance column: astype(float), np.round(.., 1); NaN cells stay NaN. -/
def parse_distance_cell : Option (Option String) → Except String (Option ℚ)
  | none => .ok none
  | some none => .ok none
  | some (some s) => match pyFloat? s with
    | none => .error "could not convert string to float"
    | some q => .ok (some (round1 q))

/-- elevation column (first pass): astype(float), np.round(.., 1). -/
def parse_elevation_cell : Option String → Except String (Option ℚ)
  | none => .ok none
  | some s => match pyFloat? s with
    | none => .error "could not convert string to float"
    | some q => .ok (some (round1 q))

/-- Assembly of the output rows once every column conversion succeeded:
activity type with its first len('HKWorkoutActivityType') = 21 characters
removed; elevation filled with 0, divided by 100 (cm to m) and rounded;
the unit label 'cm' replaced by 'm'; calendar dates from the timestamps.
When the distance column never existed, the required-columns loop creates
it filled with 0. -/
def build_workout_rows (recs : List WRecData) (durs : List Int)
    (dists elevs : List (Option ℚ)) (has_dist : Bool) : List WorkoutRow :=
  (recs.zip (durs.zip (dists.zip elevs))).map (fun p =>
    let r := p.1
    let dur := p.2.1
    let dist := p.2.2.1
    let elev := p.2.2.2
    { workout_activity_type := r.workout_activity_type.drop 21
      duration := dur
      duration_unit := r.duration_unit
      distance_walking_running := if has_dist then dist else some 0
      distance_walking_running_unit := r.distance_unit.bind id
      elevation_ascended := round1 ((elev.getD 0) / 100)
      elevation_ascended_unit :=
        (r.elevation_unit.bind id).map (fun u => if u = "cm" then "m" else u)
      start_datetime := r.start_ts
      end_datetime := r.end_ts
      start_date := dayOf r.start_ts
      end_date := dayOf r.end_ts })

/-- process_workout_data.  An empty export yields a DataFrame with no
columns, so the very first column access raises KeyError; and the
fillna on the elevation column is not guarded by a column-existence
check, so it raises KeyError whenever no workout carried elevation
metadata.  Both KeyErrors are re-raised as DataProcessingError. -/
def process_workout_data (ws : List RawWorkout) : Except String (List WorkoutRow) := do
  let recs := ws.map extract_workout
  if recs.isEmpty then .error "KeyError: workout_activity_type"
  else do
    let durs ← recs.mapM (fun r => parse_duration_cell r.duration)
    let has_dist := recs.any (fun r => r.distance.isSome)
    let dists ← if has_dist then recs.mapM (fun r => parse_distance_cell r.distance)
                else .ok (recs.map (fun _ => none))
    let has_elev := recs.any (fun r => r.elevation.isSome)
    let elevs ← if has_elev then recs.mapM (fun r => parse_elevation_cell r.elevation)
                else .ok (recs.map (fun _ => none))
    if has_elev then
      .ok (build_workout_rows recs durs dists elevs has_dist)
    else .error "KeyError: elevation_ascended"

/-! ## Daily Aggregator: process_final_data -/

/-- A NormalizedRecord row restricted to the columns process_final_data
reads (type, value, value2, end_date). -/
structure NRecord where
  type : String
  value : Option ℚ
  value2 : String
  end_date : Int
deriving DecidableEq

/-- A NormalizedWorkout row restricted to the columns process_final_data
reads.  duration is an integer (astype(int) upstream); the distance cell
can be NaN for a workout that carried no distance statistic. -/
structure NWorkout where
  workout_activity_type : String
  duration : Int
  distance_walking_running : Option ℚ
  elevation_ascended : ℚ
  end_date : Int
deriving DecidableEq

/-- One row of the DailyFact table, with the final schema column names. -/
structure DailyRow where
  EndDate : Int
  Weekday : String
  CoreSleepHours : Option ℚ
  DeepSleepHours : Option ℚ
  REMSleepHours : Option ℚ
  TotalSleepHours : Option ℚ
  CoreSleepHoursNextNight : Option ℚ
  DeepSleepHoursNextNight : Option ℚ
  REMSleepHoursNextNight : Option ℚ
  TotalSleepHoursNextNight : Option ℚ
  AvgRestingHeartRateBPM : Option ℚ
  ActiveCaloriesBurned : Option ℚ
  BasalCaloriesBurned : Option ℚ
  TotalCaloriesBurned : Option ℚ
  StrengthTrainingMinutes : Int
  RunningMinutes : Int
  HIITMinutes : Int
  CoreTrainingMinutes : Int
  RunningMiles : ℚ
  RunningMetersAscended : ℚ
  TotalWorkoutMinutes : Int
  StrengthTrained : Int
  Ran : Int
  HIITTrained : Int
  CoreTrained : Int
  Exercised : Int
  WeekEndingDate : Int
deriving DecidableEq, Inhabited

/-- One sleep metric for one spine date: filter on value2, sum the value
seconds per date (groupby sum skips NaN cells), left-join (a date with no
matching group stays NaN), divide by 3600 and round to 1 decimal. -/
def sleep_metric (H : List NRecord) (cat : String) (d : Int) : Option ℚ :=
  let g := H.filter (fun r => r.value2 == cat && r.end_date == d)
  if g.isEmpty then none
  else some (round1 (((g.map (fun r => r.value.getD 0)).sum) / 3600))

/-- TotalSleepHours: the NaN-propagating sum of the three rounded sleep
columns. -/
def total_sleep (H : List NRecord) (d : Int) : Option ℚ :=
  nanAdd (nanAdd (sleep_metric H "HKCategoryValueSleepAnalysisAsleepCore" d)
                 (sleep_metric H "HKCategoryValueSleepAnalysisAsleepDeep" d))
         (sleep_metric H "HKCategoryValueSleepAnalysisAsleepREM" d)

/-- One health metric (by exact type match): per-date sum, left-join;
calorie metrics are additionally rounded to whole numbers. -/
def health_metric (H : List NRecord) (t : String) (roundCal : Bool) (d : Int) :
    Option ℚ :=
  let g := H.filter (fun r => r.type == t && r.end_date == d)
  if g.isEmpty then none
  else
    let s := (g.map (fun r => r.value.getD 0)).sum
    some (if roundCal then round0 s else s)

/-- One workout-minutes metric: group by (activity type, date), sum the
durations, left-join, fillna(0), astype(int).  An empty group sums to 0,
matching the fill. -/
def workout_minutes (W : List NWorkout) (t : String) (d : Int) : Int :=
  ((W.filter (fun w => w.workout_activity_type == t && w.end_date == d)).map
    (fun w => w.duration)).sum

/-- RunningMiles: the Running-restricted per-date distance sum, fillna(0). -/
def running_miles (W : List NWorkout) (d : Int) : ℚ :=
  ((W.filter (fun w => w.workout_activity_type == "Running" && w.end_date == d)).map
    (fun w => w.distance_walking_running.getD 0)).sum

/-- RunningMetersAscended: same pattern on the elevation column. -/
def running_meters (W : List NWorkout) (d : Int) : ℚ :=
  ((W.filter (fun w => w.workout_activity_type == "Running" && w.end_date == d)).map
    (fun w => w.elevation_ascended)).sum

/-- One DailyFact row for spine date d.  `next` is the immediately following
spine date: the shift(-1) of the four sleep columns copies the value those
columns take on the next row, which is a function of that row's date. -/
def mk_daily_row (H : List NRecord) (W : List NWorkout) (d : Int)
    (next : Option Int) : DailyRow :=
  let nn : (Int → Option ℚ) → Option ℚ := fun f =>
    match next with
    | none => none
    | some d2 => f d2
  let active := health_metric H "ActiveEnergyBurned" true d
  let basal := health_metric H "BasalEnergyBurned" true d
  let sMin := workout_minutes W "TraditionalStrengthTraining" d
  let rMin := workout_minutes W "Running" d
  let hMin := workout_minutes W "HighIntensityIntervalTraining" d
  let cMin := workout_minutes W "CoreTraining" d
  let totalMin := sMin + rMin + cMin + hMin
  let wd := weekdayOf d
  { EndDate := d
    Weekday := weekdayName wd
    CoreSleepHours := sleep_metric H "HKCategoryValueSleepAnalysisAsleepCore" d
    DeepSleepHours := sleep_metric H "HKCategoryValueSleepAnalysisAsleepDeep" d
    REMSleepHours := sleep_metric H "HKCategoryValueSleepAnalysisAsleepREM" d
    TotalSleepHours := total_sleep H d
    CoreSleepHoursNextNight := nn (sleep_metric H "HKCategoryValueSleepAnalysisAsleepCore")
    DeepSleepHoursNextNight := nn (sleep_metric H "HKCategoryValueSleepAnalysisAsleepDeep")
    REMSleepHoursNextNight := nn (sleep_metric H "HKCategoryValueSleepAnalysisAsleepREM")
    TotalSleepHoursNextNight := nn (total_sleep H)
    AvgRestingHeartRateBPM := health_metric H "RestingHeartRate" false d
    ActiveCaloriesBurned := active
    BasalCaloriesBurned := basal
    TotalCaloriesBurned := nanAdd active basal
    StrengthTrainingMinutes := sMin
    RunningMinutes := rMin
    HIITMinutes := hMin
    CoreTrainingMinutes := cMin
    RunningMiles := running_miles W d
    RunningMetersAscended := running_meters W d
    TotalWorkoutMinutes := totalMin
    StrengthTrained := if 0 < sMin then 1 else 0
    Ran := if 0 < rMin then 1 else 0
    HIITTrained := if 0 < hMin then 1 else 0
    CoreTrained := if 0 < cMin then 1 else 0
    Exercised := if 0 < totalMin then 1 else 0
    WeekEndingDate := d + (6 - wd) }

/-- Sorted insertion without duplicates, for np.unique. -/
def insertUniq (x : Int) : List Int → List Int
  | [] => [x]
  | y :: ys =>
      if x < y then x :: y :: ys
      else if x = y then y :: ys
      else y :: insertUniq x ys

/-- np.sort(np.unique(l)): the ascending list of distinct values. -/
def np_unique (l : List Int) : List Int := l.foldr insertUniq []

/-- The spine rows in date order; each row sees the next spine date for the
shift(-1) columns, so the last row's NextNight cells are NaN. -/
def build_rows (H : List NRecord) (W : List NWorkout) : List Int → List DailyRow
  | [] => []
  | d :: rest => mk_daily_row H W d rest.head? :: build_rows H W rest

/-- The full date spine table, before the reporting-window filter. -/
def daily_rows (H : List NRecord) (W : List NWorkout) : List DailyRow :=
  build_rows H W (np_unique (H.map (fun r => r.end_date)))

/-- process_final_data.  Each of the four workout-minute merges does
groupby(...).sum().loc[workout_type]: when that activity type occurs in no
workout row at all, .loc raises KeyError (re-raised as
DataProcessingError).  The checks happen in the dict order of
workout_types.  The surviving rows are filtered to
EndDate >= 2024-01-01 (day 19723). -/
def process_final_data (H : List NRecord) (W : List NWorkout) :
    Except String (List DailyRow) :=
  if W.all (fun w => w.workout_activity_type != "TraditionalStrengthTraining") then
    .error "KeyError: TraditionalStrengthTraining"
  else if W.all (fun w => w.workout_activity_type != "Running") then
    .error "KeyError: Running"
  else if W.all (fun w => w.workout_activity_type != "HighIntensityIntervalTraining") then
    .error "KeyError: HighIntensityIntervalTraining"
  else if W.all (fun w => w.workout_activity_type != "CoreTraining") then
    .error "KeyError: CoreTraining"
  else
    .ok ((daily_rows H W).filter (fun r => decide (19723 ≤ r.EndDate)))

/-! ## Distribution Summarizer (regimen part of scripts/refresh.py) -/

/-- One row of the regimen_boxplots table. -/
structure RegimenRow where
  Min : Option ℚ
  Q1 : Option ℚ
  Median : Option ℚ
  Q3 : Option ℚ
  Max : Option ℚ
  Regimen : String
deriving DecidableEq, Inhabited

/-- The ascending sort pandas performs before taking quantiles. -/
def sortQ (l : List ℚ) : List ℚ := List.insertionSort (fun a b => a ≤ b) l

/-- Series.quantile with the default linear interpolation, on the sorted
values: position p*(n-1), its floor index i and fractional part f, result
x_i + f*(x_(i+1) - x_i). -/
def quantile (s : List ℚ) (p : ℚ) : ℚ :=
  let n := s.length
  let pos := p * ((n : ℚ) - 1)
  let i : ℕ := (⌊pos⌋).toNat
  let f : ℚ := pos - (i : ℚ)
  let xi := s.getD i 0
  let xi1 := s.getD (i + 1) xi
  xi + f * (xi1 - xi)

/-- The agg(Min, Q1, Median, Q3, Max) row for one cohort.  On an empty
series every aggregate is NaN.  Series.min/max are the first/last element
of the ascending sort; the median with linear interpolation is
quantile(0.5). -/
def five_number (vals : List ℚ) (label : String) : RegimenRow :=
  if vals.isEmpty then
    { Min := none, Q1 := none, Median := none, Q3 := none, Max := none,
      Regimen := label }
  else
    { Min := some ((sortQ vals).getD 0 0)
      Q1 := some (quantile (sortQ vals) (1/4))
      Median := some (quantile (sortQ vals) (1/2))
      Q3 := some (quantile (sortQ vals) (3/4))
      Max := some ((sortQ vals).getD ((sortQ vals).length - 1) 0)
      Regimen := label }

/-- Cohort A: StrengthTrainingMinutes of the DailyFact rows with
EndDate < 2024-12-31 (day 20088) and minutes > 0. -/
def regimen_a_values (facts : List DailyRow) : List ℚ :=
  (facts.filter (fun r =>
    decide (r.EndDate < 20088) && decide (0 < r.StrengthTrainingMinutes))).map
    (fun r => (r.StrengthTrainingMinutes : ℚ))

/-- Cohort B: EndDate on/after 2024-12-31 and minutes > 0. -/
def regimen_b_values (facts : List DailyRow) : List ℚ :=
  (facts.filter (fun r =>
    decide (20088 ≤ r.EndDate) && decide (0 < r.StrengthTrainingMinutes))).map
    (fun r => (r.StrengthTrainingMinutes : ℚ))

/-- The concatenated two-row regimen_boxplots table, tagged 'A' then 'B'. -/
def regimen_boxplots (facts : List DailyRow) : List RegimenRow :=
  [five_number (regimen_a_values facts) "A",
   five_number (regimen_b_values facts) "B"]

/-! ## Concrete inputs used by witnesses and counterexamples -/

deriving instance DecidableEq for Except

/-- A Core sleep record of 2 hours. -/
def rCore : RawRecord :=
  { type := "HKCategoryTypeIdentifierSleepAnalysis", unit := none,
    value := "HKCategoryValueSleepAnalysisAsleepCore",
    startDate := 1000, endDate := 8200 }

/-- An in-bed record of 1 hour. -/
def rInBed : RawRecord :=
  { type := "HKCategoryTypeIdentifierSleepAnalysis", unit := none,
    value := "HKCategoryValueSleepAnalysisInBed",
    startDate := 0, endDate := 3600 }

/-- A Core sleep record of 25 hours (90000 seconds). -/
def rBig : RawRecord :=
  { type := "HKCategoryTypeIdentifierSleepAnalysis", unit := none,
    value := "HKCategoryValueSleepAnalysisAsleepCore",
    startDate := 0, endDate := 90000 }

/-- A record whose type string is shorter than 24 characters. -/
def rShort : RawRecord :=
  { type := "HR", unit := some "count/min",
    value := "HKCategoryValueNotApplicable", startDate := 0, endDate := 0 }

/-- The flattened row of rCore. -/
def rowCore : HealthRow :=
  { type := "SleepAnalysis", unit := some "s", value := some 7200,
    value2 := "HKCategoryValueSleepAnalysisAsleepCore",
    start_datetime := 15400, end_datetime := 22600, time_elapsed := 7200,
    start_date := 0, end_date := 0 }

/-- The flattened row of rInBed. -/
def rowInBed : HealthRow :=
  { type := "SleepAnalysis", unit := some "s", value := some 3600,
    value2 := "HKCategoryValueSleepAnalysisInBed",
    start_datetime := 14400, end_datetime := 18000, time_elapsed := 3600,
    start_date := 0, end_date := 0 }

/-- The flattened row of rBig. -/
def rowBig : HealthRow :=
  { type := "SleepAnalysis", unit := some "s", value := some 3600,
    value2 := "HKCategoryValueSleepAnalysisAsleepCore",
    start_datetime := 14400, end_datetime := 104400, time_elapsed := 90000,
    start_date := 0, end_date := 1 }

/-- The flattened row of rShort. -/
def rowShort : HealthRow :=
  { type := "", unit := some "count/min", value := none,
    value2 := "HKCategoryValueNotApplicable", start_datetime := 0,
    end_datetime := 0, time_elapsed := 0, start_date := 0, end_date := 0 }

/-! ## Shared lemmas about the Record Flattener -/

/-- Field description of a successfully flattened record. -/
lemma process_health_record_fields (r : RawRecord) (row : HealthRow)
    (h : process_health_record r = .ok row) :
    ∃ v0, cast_value r.value = .ok v0 ∧
      row.type = r.type.drop 24 ∧
      row.unit = (if r.value ∈ sleep_categories then some "s" else r.unit) ∧
      row.value = (if r.value ∈ sleep_categories
        then some (((r.endDate - r.startDate).emod 86400 : Int) : ℚ) else v0) ∧
      row.value2 = r.value ∧
      row.start_datetime =
        r.startDate + (if r.value ∈ sleep_categories then 14400 else 0) ∧
      row.end_datetime =
        r.endDate + (if r.value ∈ sleep_categories then 14400 else 0) ∧
      row.time_elapsed = r.endDate - r.startDate := by
  unfold process_health_record at h
  cases hc : cast_value r.value with
  | error e => rw [hc] at h; exact absurd h (by simp)
  | ok v0 =>
      rw [hc] at h
      refine ⟨v0, rfl, ?_⟩
      injection h with h
      subst h
      by_cases hm : r.value ∈ sleep_categories <;> simp [hm]

/-! ## Claims about the Record Flattener -/

/-- C2 counterexample: the claim says the value/unit overwrite is applied
only to the three sub-categories Core/Deep/REM and that an "in bed" row
keeps its value and unit.  On an in-bed record the flattener nevertheless
sets unit to "s" (the raw unit was absent) and value to the elapsed
seconds (the cast value was NaN): the overwrite condition is membership in
the six-member sleep_categories list. -/
theorem C2_counterexample :
    process_health_record rInBed = .ok rowInBed ∧
    rowInBed.value2 = "HKCategoryValueSleepAnalysisInBed" ∧
    rowInBed.unit = some "s" ∧ rInBed.unit = none ∧
    rowInBed.value = some 3600 ∧ cast_value rInBed.value = .ok none :=
  ⟨by decide, rfl, rfl, rfl, rfl, by decide⟩

/-- C2 (amended): the value/unit overwrite is applied exactly to the rows
whose original coded value (value2) is one of the six sleep-analysis
category codes — including "in bed", "awake" and "unspecified" — and rows
outside that set keep their unit and their cast value. -/
theorem C2_overwrite_exactly_sleep_categories (r : RawRecord) (row : HealthRow)
    (h : process_health_record r = .ok row) :
    (row.value2 ∈ sleep_categories →
      row.unit = some "s" ∧
      row.value = some ((row.time_elapsed.emod 86400 : Int) : ℚ)) ∧
    (row.value2 ∉ sleep_categories →
      row.unit = r.unit ∧ cast_value r.value = .ok row.value) := by
  obtain ⟨v0, hc, -, hu, hv, hv2, -, -, he⟩ := process_health_record_fields r row h
  rw [hv2]
  constructor
  · intro hm
    refine ⟨by rw [hu, if_pos hm], ?_⟩
    rw [hv, if_pos hm, he]
  · intro hm
    refine ⟨by rw [hu, if_neg hm], ?_⟩
    rw [hv, if_neg hm]
    exact hc

/-- C2 witness: the amended overwrite condition evaluated on the in-bed
record. -/
theorem C2_overwrite_exactly_sleep_categories_witness :
    rowInBed.unit = some "s" ∧
    rowInBed.value = some ((rowInBed.time_elapsed.emod 86400 : Int) : ℚ) :=
  (C2_overwrite_exactly_sleep_categories rInBed rowInBed (by decide)).1 (by decide)

/-- C3 counterexample: the claim says a Core/Deep/REM row's value equals
the elapsed duration in whole seconds.  The code takes Timedelta.seconds,
the seconds *component*, which wraps modulo 86400: a 25-hour (90000 s)
Core sleep segment gets value 3600, not 90000. -/
theorem C3_counterexample :
    process_health_record rBig = .ok rowBig ∧
    rBig.value = "HKCategoryValueSleepAnalysisAsleepCore" ∧
    rowBig.time_elapsed = 90000 ∧
    rowBig.end_datetime - rowBig.start_datetime = 90000 ∧
    rowBig.value = some 3600 ∧
    rowBig.value ≠ some ((90000 : Int) : ℚ) :=
  ⟨by decide, rfl, rfl, rfl, rfl, by decide⟩

/-- C3 (amended): for a record whose coded value is Core, Deep or REM, the
output unit is "s" and the output value is the seconds component of the
elapsed duration — (shifted end − shifted start) mod 86400 — which equals
the elapsed whole seconds exactly when the elapsed duration is nonnegative
and below 24 hours. -/
theorem C3_sleep_value_seconds (r : RawRecord) (row : HealthRow)
    (h : process_health_record r = .ok row)
    (hc : r.value ∈ ["HKCategoryValueSleepAnalysisAsleepCore",
                     "HKCategoryValueSleepAnalysisAsleepDeep",
                     "HKCategoryValueSleepAnalysisAsleepREM"]) :
    row.unit = some "s" ∧
    row.value =
      some (((row.end_datetime - row.start_datetime).emod 86400 : Int) : ℚ) ∧
    (0 ≤ row.end_datetime - row.start_datetime →
      row.end_datetime - row.start_datetime < 86400 →
      row.value = some ((row.end_datetime - row.start_datetime : Int) : ℚ)) := by
  have hsub : ∀ x ∈ ["HKCategoryValueSleepAnalysisAsleepCore",
                     "HKCategoryValueSleepAnalysisAsleepDeep",
                     "HKCategoryValueSleepAnalysisAsleepREM"],
      x ∈ sleep_categories := by decide
  have hm : r.value ∈ sleep_categories := hsub _ hc
  obtain ⟨v0, -, -, hu, hv, -, hs, hend, -⟩ := process_health_record_fields r row h
  have hdiff : row.end_datetime - row.start_datetime = r.endDate - r.startDate := by
    rw [hs, hend, if_pos hm]; ring
  refine ⟨by rw [hu, if_pos hm], by rw [hv, if_pos hm, hdiff], ?_⟩
  intro h0 h1
  rw [hdiff] at h0 h1
  have h2 : (r.endDate - r.startDate).emod 86400 = r.endDate - r.startDate :=
    Int.emod_eq_of_lt h0 h1
  rw [hv, if_pos hm, hdiff, h2]

/-- C3 witness: the amended statement evaluated on the 2-hour Core
record. -/
theorem C3_sleep_value_seconds_witness :
    rowCore.unit = some "s" ∧ rowCore.value = some ((7200 : Int) : ℚ) := by
  have h := C3_sleep_value_seconds rCore rowCore (by decide) (by decide)
  exact ⟨h.1, h.2.2 (by decide) (by decide)⟩

/-- C4: the output start/end datetimes equal the raw parsed timestamps,
shifted by exactly 4 hours (14400 s) when and only when the raw coded
value is one of the six sleep-analysis category codes. -/
theorem C4_sleep_time_shift (r : RawRecord) (row : HealthRow)
    (h : process_health_record r = .ok row) :
    row.start_datetime =
      r.startDate + (if r.value ∈ sleep_categories then 14400 else 0) ∧
    row.end_datetime =
      r.endDate + (if r.value ∈ sleep_categories then 14400 else 0) := by
  obtain ⟨v0, -, -, -, -, -, hs, hend, -⟩ := process_health_record_fields r row h
  exact ⟨hs, hend⟩

/-- C4 witness: the shift evaluated on the Core sleep record. -/
theorem C4_sleep_time_shift_witness :
    rowCore.start_datetime =
      rCore.startDate + (if rCore.value ∈ sleep_categories then 14400 else 0) ∧
    rowCore.end_datetime =
      rCore.endDate + (if rCore.value ∈ sleep_categories then 14400 else 0) :=
  C4_sleep_time_shift rCore rowCore (by decide)

/-- C9: the output type column is the input type with its first 24
characters removed, unconditionally; the quantity-type identifier has the
same 24-character length as the category prefix that is nominally
stripped, and a type shorter than 24 characters becomes the empty string
rather than an error. -/
theorem C9_type_drop_24 :
    (∀ (r : RawRecord) (row : HealthRow), process_health_record r = .ok row →
      row.type = r.type.drop 24) ∧
    "HKQuantityTypeIdentifier".length = 24 ∧
    "HKCategoryTypeIdentifier".length = 24 ∧
    (∀ (r : RawRecord) (row : HealthRow), process_health_record r = .ok row →
      r.type.length < 24 → row.type = "") := by
  have hdrop : ∀ (r : RawRecord) (row : HealthRow),
      process_health_record r = .ok row → row.type = r.type.drop 24 := by
    intro r row h
    obtain ⟨v0, -, ht, -⟩ := process_health_record_fields r row h
    exact ht
  refine ⟨hdrop, by decide, by decide, ?_⟩
  intro r row h hlen
  rw [hdrop r row h, String.drop_eq]
  have : r.type.data.length ≤ 24 := le_of_lt hlen
  rw [List.drop_eq_nil_of_le this]

/-- C9 witness: the stripping evaluated on a 2-character type. -/
theorem C9_type_drop_24_witness :
    rowShort.type = rShort.type.drop 24 ∧ rowShort.type = "" :=
  ⟨C9_type_drop_24.1 rShort rowShort (by decide),
   C9_type_drop_24.2.2.2 rShort rowShort (by decide) (by decide)⟩

/-! ## Claims about the Workout Flattener -/

/-- A workout that carries no elevation metadata (and no distance
statistic). -/
def w5 : RawWorkout :=
  { workoutActivityType := "HKWorkoutActivityTypeRunning",
    duration := some "30", durationUnit := some "min",
    startDate := 1706500000, endDate := 1706501800,
    statistics := [], metadata := [] }

/-- C5: the claim says the Workout Flattener succeeds on every collection,
including the empty one and ones where no workout carries elevation
metadata, always emitting the five required columns with defaults.  In
fact an empty collection fails at the very first column access, and a
collection in which no workout has elevation metadata fails at the
unguarded fillna on the elevation column; both are re-raised as
DataProcessingError instead of producing defaulted columns. -/
theorem C5_required_columns_failure :
    process_workout_data ([] : List RawWorkout) =
      .error "KeyError: workout_activity_type" ∧
    process_workout_data [w5] = .error "KeyError: elevation_ascended" :=
  ⟨rfl, rfl⟩

/-! ## Shared lemmas about the Daily Aggregator -/

/-- A successful aggregation is the date-filtered spine table. -/
lemma process_final_data_ok_eq (H : List NRecord) (W : List NWorkout)
    (out : List DailyRow) (h : process_final_data H W = .ok out) :
    out = (daily_rows H W).filter (fun r => decide (19723 ≤ r.EndDate)) := by
  unfold process_final_data at h
  split at h
  · exact absurd h (by simp)
  · split at h
    · exact absurd h (by simp)
    · split at h
      · exact absurd h (by simp)
      · split at h
        · exact absurd h (by simp)
        · injection h with h
          exact h.symm

/-- Every spine row is mk_daily_row at some date. -/
lemma mem_build_rows {H : List NRecord} {W : List NWorkout} {r : DailyRow} :
    ∀ {ds : List Int}, r ∈ build_rows H W ds →
      ∃ d next, r = mk_daily_row H W d next := by
  intro ds
  induction ds with
  | nil => intro h; simp [build_rows] at h
  | cons d rest ih =>
      intro h
      rw [build_rows] at h
      rcases List.mem_cons.mp h with h | h
      · exact ⟨d, rest.head?, h⟩
      · exact ih h

/-! ## Claims about the Daily Aggregator -/

/-- The health table used by the aggregation witnesses: three flattened
sleep segments (Core 2 h, Deep 1 h, REM 1.5 h) ending on day 19750
(2024-01-28) and one Core segment (1 h) ending the following day. -/
def fixH : List NRecord :=
  [ { type := "SleepAnalysis", value := some 7200,
      value2 := "HKCategoryValueSleepAnalysisAsleepCore", end_date := 19750 },
    { type := "SleepAnalysis", value := some 3600,
      value2 := "HKCategoryValueSleepAnalysisAsleepDeep", end_date := 19750 },
    { type := "SleepAnalysis", value := some 5400,
      value2 := "HKCategoryValueSleepAnalysisAsleepREM", end_date := 19750 },
    { type := "SleepAnalysis", value := some 3600,
      value2 := "HKCategoryValueSleepAnalysisAsleepCore", end_date := 19751 } ]

/-- The workout table used by the aggregation witnesses: one workout of
each of the four metric activity types on day 19750. -/
def fixW : List NWorkout :=
  [ { workout_activity_type := "TraditionalStrengthTraining", duration := 30,
      distance_walking_running := none, elevation_ascended := 0,
      end_date := 19750 },
    { workout_activity_type := "Running", duration := 20,
      distance_walking_running := some (5/2), elevation_ascended := 10,
      end_date := 19750 },
    { workout_activity_type := "HighIntensityIntervalTraining", duration := 15,
      distance_walking_running := none, elevation_ascended := 0,
      end_date := 19750 },
    { workout_activity_type := "CoreTraining", duration := 10,
      distance_walking_running := none, elevation_ascended := 0,
      end_date := 19750 } ]

/-- The same workout table with every HIIT row removed. -/
def fixWnoHIIT : List NWorkout :=
  [ { workout_activity_type := "TraditionalStrengthTraining", duration := 30,
      distance_walking_running := none, elevation_ascended := 0,
      end_date := 19750 },
    { workout_activity_type := "Running", duration := 20,
      distance_walking_running := some (5/2), elevation_ascended := 10,
      end_date := 19750 },
    { workout_activity_type := "CoreTraining", duration := 10,
      distance_walking_running := none, elevation_ascended := 0,
      end_date := 19750 } ]

/-- C1: the claim (and the spec's stated requirement) is that a workout
activity type absent from the whole NormalizedWorkout table must not
raise and must yield a 0-filled minutes column.  The aggregation instead
raises: the groupby(...).sum().loc lookup for the absent key
HighIntensityIntervalTraining fails (KeyError, re-raised as
DataProcessingError), so no output table is produced at all. -/
theorem C1_absent_workout_type_raises :
    process_final_data fixH fixWnoHIIT =
      .error "KeyError: HighIntensityIntervalTraining" := rfl

/-- C6: in every DailyFact row, TotalSleepHours is the sum of the three
sleep-hour columns when all three are present and is missing when any of
them is missing. -/
theorem C6_total_sleep_hours (H : List NRecord) (W : List NWorkout)
    (out : List DailyRow) (hok : process_final_data H W = .ok out)
    (r : DailyRow) (hr : r ∈ out) :
    (∀ a b c, r.CoreSleepHours = some a → r.DeepSleepHours = some b →
       r.REMSleepHours = some c → r.TotalSleepHours = some (a + b + c)) ∧
    ((r.CoreSleepHours = none ∨ r.DeepSleepHours = none ∨
       r.REMSleepHours = none) → r.TotalSleepHours = none) := by
  rw [process_final_data_ok_eq H W out hok] at hr
  obtain ⟨d, next, rfl⟩ := mem_build_rows (List.mem_filter.mp hr).1
  have hco : (mk_daily_row H W d next).CoreSleepHours =
      sleep_metric H "HKCategoryValueSleepAnalysisAsleepCore" d := rfl
  have hde : (mk_daily_row H W d next).DeepSleepHours =
      sleep_metric H "HKCategoryValueSleepAnalysisAsleepDeep" d := rfl
  have hre : (mk_daily_row H W d next).REMSleepHours =
      sleep_metric H "HKCategoryValueSleepAnalysisAsleepREM" d := rfl
  have hto : (mk_daily_row H W d next).TotalSleepHours = total_sleep H d := rfl
  rw [hco, hde, hre, hto]
  unfold total_sleep
  constructor
  · intro a b c ha hb hc
    rw [ha, hb, hc]
    rfl
  · intro hnone
    rcases hnone with hn | hn | hn <;> rw [hn] <;>
      cases sleep_metric H "HKCategoryValueSleepAnalysisAsleepCore" d <;>
      cases sleep_metric H "HKCategoryValueSleepAnalysisAsleepDeep" d <;>
      cases sleep_metric H "HKCategoryValueSleepAnalysisAsleepREM" d <;>
      rfl

/-- C10: in every DailyFact row whose four workout-minute columns are
nonnegative, Exercised = 1 exactly when one of the four binary indicators
is 1, TotalWorkoutMinutes being the sum of the four minute columns. -/
theorem C10_exercised_iff_some_indicator (H : List NRecord)
    (W : List NWorkout) (out : List DailyRow)
    (hok : process_final_data H W = .ok out) (r : DailyRow) (hr : r ∈ out)
    (h1 : 0 ≤ r.StrengthTrainingMinutes) (h2 : 0 ≤ r.RunningMinutes)
    (h3 : 0 ≤ r.HIITMinutes) (h4 : 0 ≤ r.CoreTrainingMinutes) :
    r.TotalWorkoutMinutes = r.StrengthTrainingMinutes + r.RunningMinutes +
      r.CoreTrainingMinutes + r.HIITMinutes ∧
    (r.Exercised = 1 ↔ (r.StrengthTrained = 1 ∨ r.Ran = 1 ∨
      r.HIITTrained = 1 ∨ r.CoreTrained = 1)) := by
  rw [process_final_data_ok_eq H W out hok] at hr
  obtain ⟨d, next, rfl⟩ := mem_build_rows (List.mem_filter.mp hr).1
  refine ⟨rfl, ?_⟩
  simp only [mk_daily_row] at h1 h2 h3 h4 ⊢
  split_ifs <;> omega

/-- The shift(-1) structure of the spine rows: each row's NextNight sleep
columns are the following row's sleep columns. -/
lemma build_rows_shift (H : List NRecord) (W : List NWorkout) :
    ∀ (ds : List Int) (i : ℕ) (r1 r2 : DailyRow),
      (build_rows H W ds).get? i = some r1 →
      (build_rows H W ds).get? (i + 1) = some r2 →
      r1.CoreSleepHoursNextNight = r2.CoreSleepHours ∧
      r1.DeepSleepHoursNextNight = r2.DeepSleepHours ∧
      r1.REMSleepHoursNextNight = r2.REMSleepHours ∧
      r1.TotalSleepHoursNextNight = r2.TotalSleepHours := by
  intro ds
  induction ds with
  | nil => intro i r1 r2 h1 h2; simp [build_rows] at h1
  | cons d rest ih =>
      intro i r1 r2 h1 h2
      cases i with
      | zero =>
          cases rest with
          | nil => simp [build_rows] at h2
          | cons d2 rest2 =>
              simp only [build_rows, List.get?] at h1 h2
              injection h1 with h1
              injection h2 with h2
              subst h1
              subst h2
              exact ⟨rfl, rfl, rfl, rfl⟩
      | succ n =>
          simp only [build_rows, List.get?] at h1 h2
          exact ih n r1 r2 h1 h2

/-- The last spine row carries no NextNight values. -/
lemma build_rows_last (H : List NRecord) (W : List NWorkout) :
    ∀ (ds : List Int) (r : DailyRow),
      (build_rows H W ds).getLast? = some r →
      r.CoreSleepHoursNextNight = none ∧
      r.DeepSleepHoursNextNight = none ∧
      r.REMSleepHoursNextNight = none ∧
      r.TotalSleepHoursNextNight = none := by
  intro ds
  induction ds with
  | nil => intro r h; simp [build_rows] at h
  | cons d rest ih =>
      intro r h
      cases rest with
      | nil =>
          simp only [build_rows, List.getLast?] at h
          injection h with h
          subst h
          exact ⟨rfl, rfl, rfl, rfl⟩
      | cons d2 rest2 =>
          have hconsb : build_rows H W (d :: d2 :: rest2) =
              mk_daily_row H W d (some d2) :: build_rows H W (d2 :: rest2) := rfl
          have hconsc : build_rows H W (d2 :: rest2) =
              mk_daily_row H W d2 rest2.head? :: build_rows H W rest2 := rfl
          rw [hconsb, hconsc, List.getLast?_cons_cons, ← hconsc] at h
          exact ih r h

/-- C7: in the date-ordered spine table of the Daily Aggregator, every
NextNight sleep column of a row equals the corresponding sleep column of
the immediately following row, and the last row's NextNight columns are
all missing. -/
theorem C7_next_night_shift (H : List NRecord) (W : List NWorkout) :
    (∀ (i : ℕ) (r1 r2 : DailyRow),
      (daily_rows H W).get? i = some r1 →
      (daily_rows H W).get? (i + 1) = some r2 →
      r1.CoreSleepHoursNextNight = r2.CoreSleepHours ∧
      r1.DeepSleepHoursNextNight = r2.DeepSleepHours ∧
      r1.REMSleepHoursNextNight = r2.REMSleepHours ∧
      r1.TotalSleepHoursNextNight = r2.TotalSleepHours) ∧
    (∀ r : DailyRow, (daily_rows H W).getLast? = some r →
      r.CoreSleepHoursNextNight = none ∧
      r.DeepSleepHoursNextNight = none ∧
      r.REMSleepHoursNextNight = none ∧
      r.TotalSleepHoursNextNight = none) ∧
    (∀ (out : List DailyRow), process_final_data H W = .ok out →
      ∀ r ∈ out, r ∈ daily_rows H W) := by
  refine ⟨build_rows_shift H W _, build_rows_last H W _, ?_⟩
  intro out hok r hr
  rw [process_final_data_ok_eq H W out hok] at hr
  exact (List.mem_filter.mp hr).1

/-- The first spine row of the witness tables. -/
def fix_row0 : DailyRow := mk_daily_row fixH fixW 19750 (some 19751)

/-- The second (and last) spine row of the witness tables. -/
def fix_row1 : DailyRow := mk_daily_row fixH fixW 19751 none

/-- The DailyFact table of the witness inputs (both days are in 2024, so
the reporting-window filter keeps both rows). -/
def fix_out : List DailyRow := [fix_row0, fix_row1]

/-- C6 witness: on the concrete table, Core 2 h + Deep 1 h + REM 1.5 h
gives TotalSleepHours 4.5. -/
theorem C6_total_sleep_hours_witness :
    fix_row0.TotalSleepHours = some (2 + 1 + 3/2) := by
  have hc : fix_row0.CoreSleepHours = some 2 := by
    have h : fix_row0.CoreSleepHours =
        some (round1 (List.sum [(7200 : ℚ)] / 3600)) := rfl
    rw [h]
    norm_num [List.sum_cons, List.sum_nil, round1, roundHalfEven]
  have hd : fix_row0.DeepSleepHours = some 1 := by
    have h : fix_row0.DeepSleepHours =
        some (round1 (List.sum [(3600 : ℚ)] / 3600)) := rfl
    rw [h]
    norm_num [List.sum_cons, List.sum_nil, round1, roundHalfEven]
  have hrem : fix_row0.REMSleepHours = some (3/2) := by
    have h : fix_row0.REMSleepHours =
        some (round1 (List.sum [(5400 : ℚ)] / 3600)) := rfl
    rw [h]
    norm_num [List.sum_cons, List.sum_nil, round1, roundHalfEven]
  exact (C6_total_sleep_hours fixH fixW fix_out rfl fix_row0
    (List.mem_cons_self _ _)).1 2 1 (3/2) hc hd hrem

/-- C7 witness: the shift evaluated on the two-day witness spine. -/
theorem C7_next_night_shift_witness :
    fix_row0.CoreSleepHoursNextNight = fix_row1.CoreSleepHours ∧
    fix_row1.CoreSleepHoursNextNight = none :=
  ⟨((C7_next_night_shift fixH fixW).1 0 fix_row0 fix_row1 rfl rfl).1,
   ((C7_next_night_shift fixH fixW).2.1 fix_row1 rfl).1⟩

/-- C10 witness: the indicator equivalence evaluated on the witness row
with all four activity types present. -/
theorem C10_exercised_iff_some_indicator_witness :
    fix_row0.TotalWorkoutMinutes = fix_row0.StrengthTrainingMinutes +
      fix_row0.RunningMinutes + fix_row0.CoreTrainingMinutes +
      fix_row0.HIITMinutes ∧
    (fix_row0.Exercised = 1 ↔ (fix_row0.StrengthTrained = 1 ∨
      fix_row0.Ran = 1 ∨ fix_row0.HIITTrained = 1 ∨
      fix_row0.CoreTrained = 1)) :=
  C10_exercised_iff_some_indicator fixH fixW fix_out rfl fix_row0
    (List.mem_cons_self _ _) (by decide) (by decide) (by decide) (by decide)

/-! ## Shared lemmas about the Distribution Summarizer -/

/-- quantile with its lets unfolded. -/
lemma quantile_def (s : List ℚ) (p : ℚ) :
    quantile s p =
      s.getD (⌊p * ((s.length : ℚ) - 1)⌋.toNat) 0 +
        (p * ((s.length : ℚ) - 1) -
            ((⌊p * ((s.length : ℚ) - 1)⌋.toNat : ℕ) : ℚ)) *
          (s.getD (⌊p * ((s.length : ℚ) - 1)⌋.toNat + 1)
              (s.getD (⌊p * ((s.length : ℚ) - 1)⌋.toNat) 0) -
            s.getD (⌊p * ((s.length : ℚ) - 1)⌋.toNat) 0) := rfl

/-- Linear interpolation between consecutive entries of an ascending list
is monotone in the interpolation position. -/
lemma interp_mono (s : List ℚ) (hs : List.Pairwise (· ≤ ·) s)
    (i j : ℕ) (P Q : ℚ) (hjn : j < s.length) (hij : i ≤ j)
    (hP1 : P < (i : ℚ) + 1) (hjQ : (j : ℚ) ≤ Q) (hPQ : P ≤ Q) :
    s.getD i 0 + (P - (i : ℚ)) * (s.getD (i + 1) (s.getD i 0) - s.getD i 0) ≤
    s.getD j 0 + (Q - (j : ℚ)) * (s.getD (j + 1) (s.getD j 0) - s.getD j 0) := by
  have hdj : 0 ≤ s.getD (j + 1) (s.getD j 0) - s.getD j 0 := by
    by_cases hj1 : j + 1 < s.length
    · have hle := List.pairwise_iff_getElem.mp hs j (j + 1) hjn hj1 (Nat.lt_succ_self j)
      rw [List.getD_eq_getElem s (s.getD j 0) hj1, List.getD_eq_getElem s 0 hjn]
      linarith
    · rw [List.getD_eq_default s (s.getD j 0) (le_of_not_lt hj1)]
      simp
  by_cases hij' : i = j
  · subst hij'
    have h := mul_le_mul_of_nonneg_right (sub_le_sub_right hPQ (i : ℚ)) hdj
    linarith
  · have hlt : i < j := lt_of_le_of_ne hij hij'
    have hi1n : i + 1 < s.length := Nat.lt_of_le_of_lt hlt hjn
    have hin : i < s.length := Nat.lt_of_succ_lt hi1n
    have hxle : s.getD i 0 ≤ s.getD (i + 1) 0 := by
      rw [List.getD_eq_getElem s 0 hin, List.getD_eq_getElem s 0 hi1n]
      exact List.pairwise_iff_getElem.mp hs i (i + 1) hin hi1n (Nat.lt_succ_self i)
    have hxi1 : s.getD (i + 1) (s.getD i 0) = s.getD (i + 1) 0 := by
      rw [List.getD_eq_getElem s (s.getD i 0) hi1n, List.getD_eq_getElem s 0 hi1n]
    have hmid : s.getD (i + 1) 0 ≤ s.getD j 0 := by
      rcases eq_or_lt_of_le (Nat.succ_le_of_lt hlt) with heq | hlt2
      · rw [show i + 1 = j from heq]
      · rw [List.getD_eq_getElem s 0 hi1n, List.getD_eq_getElem s 0 hjn]
        exact List.pairwise_iff_getElem.mp hs (i + 1) j hi1n hjn hlt2
    have h1 : s.getD i 0 +
        (P - (i : ℚ)) * (s.getD (i + 1) (s.getD i 0) - s.getD i 0) ≤
        s.getD (i + 1) 0 := by
      rw [hxi1]
      have ht1 : P - (i : ℚ) ≤ 1 := by linarith
      have hmul := mul_le_mul_of_nonneg_right ht1
        (by linarith : (0 : ℚ) ≤ s.getD (i + 1) 0 - s.getD i 0)
      linarith
    have h2 : s.getD j 0 ≤ s.getD j 0 +
        (Q - (j : ℚ)) * (s.getD (j + 1) (s.getD j 0) - s.getD j 0) := by
      have hmul := mul_nonneg (by linarith : (0 : ℚ) ≤ Q - (j : ℚ)) hdj
      linarith
    linarith

/-- Series.quantile with linear interpolation is monotone in p on a sorted
series. -/
lemma quantile_mono (s : List ℚ) (hs : List.Pairwise (· ≤ ·) s) (hne : s ≠ [])
    {p q : ℚ} (hp : 0 ≤ p) (hpq : p ≤ q) (hq : q ≤ 1) :
    quantile s p ≤ quantile s q := by
  have hn1 : 1 ≤ s.length := List.length_pos.mpr hne
  have hnQ : (1 : ℚ) ≤ (s.length : ℚ) := by exact_mod_cast hn1
  have hP0 : 0 ≤ p * ((s.length : ℚ) - 1) := mul_nonneg hp (by linarith)
  have hPQ : p * ((s.length : ℚ) - 1) ≤ q * ((s.length : ℚ) - 1) :=
    mul_le_mul_of_nonneg_right hpq (by linarith)
  have hQle : q * ((s.length : ℚ) - 1) ≤ (s.length : ℚ) - 1 := by
    calc q * ((s.length : ℚ) - 1) ≤ 1 * ((s.length : ℚ) - 1) :=
          mul_le_mul_of_nonneg_right hq (by linarith)
      _ = (s.length : ℚ) - 1 := one_mul _
  have hfP0 : 0 ≤ ⌊p * ((s.length : ℚ) - 1)⌋ := Int.floor_nonneg.mpr hP0
  have hfQ0 : 0 ≤ ⌊q * ((s.length : ℚ) - 1)⌋ :=
    le_trans hfP0 (Int.floor_le_floor hPQ)
  rw [quantile_def, quantile_def]
  apply interp_mono s hs
  · have h2 : ((s.length : ℚ) - 1) = (((s.length : ℤ) - 1 : ℤ) : ℚ) := by
      push_cast; ring
    have h1 : ⌊q * ((s.length : ℚ) - 1)⌋ ≤ (s.length : ℤ) - 1 := by
      calc ⌊q * ((s.length : ℚ) - 1)⌋ ≤ ⌊((s.length : ℚ) - 1)⌋ :=
            Int.floor_le_floor hQle
        _ = (s.length : ℤ) - 1 := by rw [h2, Int.floor_intCast]
    omega
  · have := Int.floor_le_floor hPQ
    omega
  · have h2 := Int.lt_floor_add_one (p * ((s.length : ℚ) - 1))
    have h4 : ((⌊p * ((s.length : ℚ) - 1)⌋.toNat : ℕ) : ℤ) =
        ⌊p * ((s.length : ℚ) - 1)⌋ := Int.toNat_of_nonneg hfP0
    have h3 : ((⌊p * ((s.length : ℚ) - 1)⌋.toNat : ℕ) : ℚ) =
        ((⌊p * ((s.length : ℚ) - 1)⌋ : ℤ) : ℚ) := by
      exact_mod_cast congrArg (fun z : ℤ => (z : ℚ)) h4
    rw [h3]
    exact_mod_cast h2
  · have h2 := Int.floor_le (q * ((s.length : ℚ) - 1))
    have h4 : ((⌊q * ((s.length : ℚ) - 1)⌋.toNat : ℕ) : ℤ) =
        ⌊q * ((s.length : ℚ) - 1)⌋ := Int.toNat_of_nonneg hfQ0
    have h3 : ((⌊q * ((s.length : ℚ) - 1)⌋.toNat : ℕ) : ℚ) =
        ((⌊q * ((s.length : ℚ) - 1)⌋ : ℤ) : ℚ) := by
      exact_mod_cast congrArg (fun z : ℤ => (z : ℚ)) h4
    rw [h3]
    exact_mod_cast h2
  · exact hPQ

/-- quantile at 0 is the first element of the sorted list. -/
lemma quantile_zero (s : List ℚ) : quantile s 0 = s.getD 0 0 := by
  rw [quantile_def]
  norm_num

/-- quantile at 1 is the last element of the sorted list. -/
lemma quantile_one (s : List ℚ) (hne : s ≠ []) :
    quantile s 1 = s.getD (s.length - 1) 0 := by
  have hn1 : 1 ≤ s.length := List.length_pos.mpr hne
  have h1 : (1 : ℚ) * ((s.length : ℚ) - 1) = ((s.length - 1 : ℕ) : ℚ) := by
    rw [one_mul, Nat.cast_sub hn1, Nat.cast_one]
  rw [quantile_def, h1, Int.floor_natCast, Int.toNat_natCast, sub_self,
    zero_mul, add_zero]

/-- The ascending sort is pairwise ordered. -/
lemma sortQ_pairwise (l : List ℚ) : List.Pairwise (· ≤ ·) (sortQ l) :=
  List.sorted_insertionSort _ l

/-- The sort of a nonempty list is nonempty. -/
lemma sortQ_ne_nil (l : List ℚ) (h : ¬ l.isEmpty) : sortQ l ≠ [] := by
  intro hnil
  have hlen : (sortQ l).length = l.length := (List.perm_insertionSort _ l).length_eq
  rw [hnil] at hlen
  have : l = [] := List.length_eq_zero.mp hlen.symm
  subst this
  simp at h

/-- The cohort label survives both branches of five_number. -/
lemma five_number_label (vals : List ℚ) (lab : String) :
    (five_number vals lab).Regimen = lab := by
  rw [five_number]
  split <;> rfl

/-- Whenever the five aggregates of a cohort are present they form a
monotone five-number summary. -/
lemma five_number_chain (vals : List ℚ) (lab : String) {m q1 me q3 mx : ℚ}
    (hm : (five_number vals lab).Min = some m)
    (h1 : (five_number vals lab).Q1 = some q1)
    (h2 : (five_number vals lab).Median = some me)
    (h3 : (five_number vals lab).Q3 = some q3)
    (h4 : (five_number vals lab).Max = some mx) :
    m ≤ q1 ∧ q1 ≤ me ∧ me ≤ q3 ∧ q3 ≤ mx := by
  by_cases he : vals.isEmpty
  · rw [five_number, if_pos he] at hm
    exact absurd hm (by simp)
  · rw [five_number, if_neg he] at hm h1 h2 h3 h4
    simp only [Option.some.injEq] at hm h1 h2 h3 h4
    subst hm h1 h2 h3 h4
    have hs := sortQ_pairwise vals
    have hne := sortQ_ne_nil vals he
    refine ⟨?_, ?_, ?_, ?_⟩
    · rw [← quantile_zero (sortQ vals)]
      exact quantile_mono _ hs hne (by norm_num) (by norm_num) (by norm_num)
    · exact quantile_mono _ hs hne (by norm_num) (by norm_num) (by norm_num)
    · exact quantile_mono _ hs hne (by norm_num) (by norm_num) (by norm_num)
    · rw [← quantile_one (sortQ vals) hne]
      exact quantile_mono _ hs hne (by norm_num) (by norm_num) (by norm_num)

/-! ## Claim about the Distribution Summarizer -/

/-- C8: on every DailyFact table, the regimen summary has exactly the two
rows labeled 'A' and 'B'; row A summarises the StrengthTrainingMinutes of
the rows with EndDate before 2024-12-31 (day 20088) and minutes > 0, row B
those on/after that date with minutes > 0, and every present five-number
summary satisfies Min ≤ Q1 ≤ Median ≤ Q3 ≤ Max. -/
theorem C8_regimen_summary (facts : List DailyRow) :
    regimen_boxplots facts =
      [five_number (regimen_a_values facts) "A",
       five_number (regimen_b_values facts) "B"] ∧
    ((regimen_boxplots facts).getD 0 default).Regimen = "A" ∧
    ((regimen_boxplots facts).getD 1 default).Regimen = "B" ∧
    (∀ row ∈ regimen_boxplots facts, ∀ m q1 me q3 mx : ℚ,
      row.Min = some m → row.Q1 = some q1 → row.Median = some me →
      row.Q3 = some q3 → row.Max = some mx →
      m ≤ q1 ∧ q1 ≤ me ∧ me ≤ q3 ∧ q3 ≤ mx) := by
  refine ⟨rfl, five_number_label _ _, five_number_label _ _, ?_⟩
  intro row hrow m q1 me q3 mx hm h1 h2 h3 h4
  rcases List.mem_cons.mp hrow with heq | hrow2
  · subst heq
    exact five_number_chain _ _ hm h1 h2 h3 h4
  · rcases List.mem_cons.mp hrow2 with heq | hnil
    · subst heq
      exact five_number_chain _ _ hm h1 h2 h3 h4
    · exact absurd hnil (List.not_mem_nil _)

/-- A one-day DailyFact table whose only strength session (30 min) falls
before the regimen cutoff. -/
def w8a : List NWorkout :=
  [ { workout_activity_type := "TraditionalStrengthTraining", duration := 30,
      distance_walking_running := none, elevation_ascended := 0,
      end_date := 20000 } ]

/-- A one-day DailyFact table whose only strength session (45 min) falls
on/after the regimen cutoff. -/
def w8b : List NWorkout :=
  [ { workout_activity_type := "TraditionalStrengthTraining", duration := 45,
      distance_walking_running := none, elevation_ascended := 0,
      end_date := 20100 } ]

/-- Two DailyFact rows, one in each regimen cohort. -/
def facts8 : List DailyRow :=
  [mk_daily_row [] w8a 20000 none, mk_daily_row [] w8b 20100 none]

/-- C8 witness: the summary of cohort A of the concrete two-row table is
the constant 30 and its five-number chain holds. -/
theorem C8_regimen_summary_witness :
    (30 : ℚ) ≤ 30 ∧ (30 : ℚ) ≤ 30 ∧ (30 : ℚ) ≤ 30 ∧ (30 : ℚ) ≤ 30 := by
  have hsort : sortQ (regimen_a_values facts8) = [(30 : ℚ)] := by decide
  have hq : ∀ p : ℚ, quantile [(30 : ℚ)] p = 30 := by
    intro p
    rw [quantile_def]
    norm_num
  have hMin : (five_number (regimen_a_values facts8) "A").Min = some 30 := by
    rw [five_number, if_neg (by decide), hsort]
    rfl
  have hQ1 : (five_number (regimen_a_values facts8) "A").Q1 = some 30 := by
    rw [five_number, if_neg (by decide), hsort]
    simp only [Option.some.injEq]
    exact hq _
  have hMe : (five_number (regimen_a_values facts8) "A").Median = some 30 := by
    rw [five_number, if_neg (by decide), hsort]
    simp only [Option.some.injEq]
    exact hq _
  have hQ3 : (five_number (regimen_a_values facts8) "A").Q3 = some 30 := by
    rw [five_number, if_neg (by decide), hsort]
    simp only [Option.some.injEq]
    exact hq _
  have hMax : (five_number (regimen_a_values facts8) "A").Max = some 30 := by
    rw [five_number, if_neg (by decide), hsort]
    rfl
  exact (C8_regimen_summary facts8).2.2.2
    (five_number (regimen_a_values facts8) "A") (List.mem_cons_self _ _)
    30 30 30 30 30 hMin hQ1 hMe hQ3 hMax

end HealthKit
